import Mathlib

/-!
Verification of the interactive-session bridge of `gemini-cli`
(`packages/cli/src/services/a2aService.ts`,
`packages/cli/src/services/uiMirrorService.ts`,
`packages/cli/src/core/remoteServer.ts`) against its natural-language
specification.  JavaScript values reaching the handlers are modelled by a
JSON value type; JavaScript truthiness, `||` defaulting, `parseInt`,
optional chaining and `JSON.stringify` are modelled explicitly.
-/

/-- A JSON value, the shape of every message crossing the bridge.  Numbers are
modelled as integers: no handler under verification performs numeric
arithmetic beyond the integer `parseInt` of the `limit` query parameter. -/
inductive Json where
  | null : Json
  | bool (b : Bool) : Json
  | num (n : Int) : Json
  | str (s : String) : Json
  | arr (elems : List Json) : Json
  | obj (fields : List (String × Json)) : Json

/-- First binding of a key in an object's field list (JavaScript property
lookup on the object literals the handlers build, which never repeat keys). -/
def lookupField : List (String × Json) → String → Option Json
  | [], _ => none
  | (k, v) :: fs, key => if k = key then some v else lookupField fs key

/-- JavaScript property access `j.key`: `none` models `undefined` (absent key,
or any non-object receiver). -/
def Json.getField : Json → String → Option Json
  | Json.obj fields, key => lookupField fields key
  | _, _ => none

/-- Optional chaining `o?.key` on a possibly-`undefined` value. -/
def optField (o : Option Json) (key : String) : Option Json :=
  match o with
  | some j => j.getField key
  | none => none

/-- The test `v && typeof v === 'object' && !Array.isArray(v)` used by both
inbound routers: `null` is falsy, arrays are excluded, primitives fail the
`typeof` test. -/
def isObjRecord : Option Json → Bool
  | some (Json.obj _) => true
  | _ => false

/-- Whether an optional JSON value is a string (`typeof v === 'string'`). -/
def isStringField : Option Json → Bool
  | some (Json.str _) => true
  | _ => false

/-- JavaScript truthiness of a JSON value: `null`, `false`, `0` and the empty
string are falsy; every object and array is truthy. -/
def jsTruthyJson : Json → Bool
  | Json.null => false
  | Json.bool b => b
  | Json.num n => !(n == 0)
  | Json.str s => !(s == "")
  | Json.arr _ => true
  | Json.obj _ => true

/-- Truthiness of a possibly-`undefined` value. -/
def jsTruthy : Option Json → Bool
  | some j => jsTruthyJson j
  | none => false

/-- JavaScript `v || dflt` on a string-or-undefined value: the empty string is
falsy and is replaced by the default. -/
def jsOrString (v : Option String) (dflt : String) : String :=
  match v with
  | some s => if s = "" then dflt else s
  | none => dflt

/-- Lower-case hexadecimal digit, for `\u00XX` escapes. -/
def hexDigit (n : Nat) : Char :=
  if n < 10 then Char.ofNat (48 + n) else Char.ofNat (87 + n)

/-- JSON string escaping as `JSON.stringify` performs it: quote, backslash,
the named control escapes, and `\u00XX` for the remaining control characters. -/
def escapeChar (c : Char) : String :=
  if c = Char.ofNat 34 then "\\\""
  else if c = Char.ofNat 92 then "\\\\"
  else if c = Char.ofNat 8 then "\\b"
  else if c = Char.ofNat 9 then "\\t"
  else if c = Char.ofNat 10 then "\\n"
  else if c = Char.ofNat 12 then "\\f"
  else if c = Char.ofNat 13 then "\\r"
  else if c.toNat < 32 then
    "\\u00" ++ String.singleton (hexDigit (c.toNat / 16))
      ++ String.singleton (hexDigit (c.toNat % 16))
  else String.singleton c

/-- A JSON string literal with surrounding quotes. -/
def escapeString (s : String) : String :=
  "\"" ++ String.join (s.data.map escapeChar) ++ "\""

mutual

/-- `JSON.stringify` of a JSON value (no spacing, keys in field order). -/
def Json.stringify : Json → String
  | Json.null => "null"
  | Json.bool b => if b then "true" else "false"
  | Json.num n => toString n
  | Json.str s => escapeString s
  | Json.arr elems => "[" ++ Json.stringifyElems elems ++ "]"
  | Json.obj fields => "\x7b" ++ Json.stringifyFields fields ++ "\x7d"

/-- Comma-separated serialization of array elements. -/
def Json.stringifyElems : List Json → String
  | [] => ""
  | [j] => Json.stringify j
  | j :: rest => Json.stringify j ++ "," ++ Json.stringifyElems rest

/-- Comma-separated serialization of object fields. -/
def Json.stringifyFields : List (String × Json) → String
  | [] => ""
  | [(k, v)] => escapeString k ++ ":" ++ Json.stringify v
  | (k, v) :: rest =>
      escapeString k ++ ":" ++ Json.stringify v ++ "," ++ Json.stringifyFields rest

end

/-- JavaScript whitespace skipped by `parseInt`. -/
def isSpaceJs (c : Char) : Bool :=
  c == Char.ofNat 32 || c == Char.ofNat 9 || c == Char.ofNat 10
    || c == Char.ofNat 13 || c == Char.ofNat 11 || c == Char.ofNat 12

/-- Decimal value of a digit list. -/
def digitsVal (cs : List Char) : Nat :=
  cs.foldl (fun a c => a * 10 + (c.toNat - 48)) 0

/-- `parseInt(s, 10)`: skip leading whitespace, read an optional sign, then the
longest digit prefix; `none` models `NaN` (no digits). -/
def parseIntJs (s : String) : Option Int :=
  let cs := s.data.dropWhile isSpaceJs
  let signed : Int × List Char :=
    match cs with
    | c :: rest =>
        if c = Char.ofNat 45 then (-1, rest)
        else if c = Char.ofNat 43 then (1, rest)
        else (1, cs)
    | [] => (1, [])
  let digits := signed.2.takeWhile (fun c => c.isDigit)
  if digits.isEmpty then none
  else some (signed.1 * (digitsVal digits : Int))

/-!
The A2A service (`packages/cli/src/services/a2aService.ts`): inbound message
routing on both transports, tool-status and tool-result mapping, and the
outbound broadcast path.
-/

/-- A `TOOL_CONFIRMATION_RESPONSE` published to the host message bus
(`messageBus.publish(\x7b type, correlationId, confirmed \x7d)`). -/
structure ToolConfirmationResponse where
  type : String
  correlationId : String
  confirmed : Bool
deriving DecidableEq

/-- An observable effect of routing one inbound peer message: a prompt
injection (`appEvents.emit(AppEvent.InjectInput, input)`) or a message-bus
publish. -/
inductive A2AAction where
  | injectInput (input : String)
  | publish (msg : ToolConfirmationResponse)
deriving DecidableEq

/-- The WebSocket inbound handler `A2AService.handleClientMessage`
(a2aService.ts lines 363 to 409).  Note the branch order: when
`content.data` is a non-array object the handler never looks at
`content.text`; the `content.text` injection lives in the `else` branch of
the `data` test. -/
def handleClientMessage (message : Json) : List A2AAction :=
  match message.getField "method" with
  | some (Json.str method) =>
    if method = "message/stream" then
      match message.getField "params" with
      | some (Json.obj paramsFields) =>
          (match lookupField paramsFields "message" with
           | some (Json.obj msgFields) =>
               (match lookupField msgFields "content" with
                | some (Json.obj contentFields) =>
                    (match lookupField contentFields "data" with
                     | some (Json.obj dataFields) =>
                         (match lookupField dataFields "kind" with
                          | some (Json.str kind) =>
                              if kind = "TOOL_CALL_CONFIRMATION" then
                                match lookupField dataFields "tool_call_id",
                                      lookupField dataFields "selected_option_id" with
                                | some (Json.str toolCallId),
                                  some (Json.str selectedOptionId) =>
                                    [A2AAction.publish
                                      ⟨"TOOL_CONFIRMATION_RESPONSE", toolCallId,
                                        selectedOptionId == "proceed_once"⟩]
                                | _, _ => []
                              else []
                          | _ => [])
                     | _ =>
                         -- `content.data` missing or not a plain object: fall back to text
                         match lookupField contentFields "text" with
                         | some (Json.str input) => [A2AAction.injectInput input]
                         | _ => [])
                | _ => [])
           | _ => [])
      | _ => []
    else []
  | _ => []

/-- Body routing of the SSE/HTTP handler `handleStreamRequest`
(a2aService.ts lines 130 to 167): `content.text` is classified first; only
otherwise is `content.data` examined for a `TOOL_CALL_CONFIRMATION`. -/
def routeStreamBody (body : Json) : List A2AAction :=
  let params := body.getField "params"
  let message := optField params "message"
  let content := optField message "content"
  match optField content "text" with
  | some (Json.str input) => [A2AAction.injectInput input]
  | _ =>
      match optField content "data" with
      | some (Json.obj dataFields) =>
          (match lookupField dataFields "kind" with
           | some (Json.str kind) =>
               if kind = "TOOL_CALL_CONFIRMATION" then
                 match lookupField dataFields "tool_call_id",
                       lookupField dataFields "selected_option_id" with
                 | some (Json.str toolCallId), some (Json.str selectedOptionId) =>
                     [A2AAction.publish
                       ⟨"TOOL_CONFIRMATION_RESPONSE", toolCallId,
                         selectedOptionId == "proceed_once"⟩]
                 | _, _ => []
               else []
           | _ => [])
      | _ => []

/-- The mismatch test `req.params.taskId && req.params.taskId !==
this.config.sessionId`; the empty string is falsy in JavaScript, so it never
rejects. -/
def taskIdRejected (paramTaskId : Option String) (sessionId : String) : Bool :=
  match paramTaskId with
  | some t => !(t == "") && !(t == sessionId)
  | none => false

/-- The externally observable outcome of one `POST .../messages/stream`
request: HTTP status, optional JSON error body, whether the SSE headers were
set and flushed, whether the response was registered as an SSE peer, and the
routed inbound actions. -/
structure StreamResponse where
  status : Nat
  body : Option Json
  sseOpened : Bool
  peerRegistered : Bool
  actions : List A2AAction

/-- The HTTP stream handler `handleStreamRequest` (a2aService.ts lines 105 to
172): a URL `taskId` differing from the session is rejected with 404 before
any SSE registration or body routing; otherwise the SSE stream is opened, the
response registered, and the body routed. -/
def handleStreamRequest (paramTaskId : Option String) (sessionId : String)
    (body : Json) : StreamResponse :=
  if taskIdRejected paramTaskId sessionId then
    { status := 404,
      body := some (Json.obj [("error", Json.str "Task not found")]),
      sseOpened := false, peerRegistered := false, actions := [] }
  else
    { status := 200, body := none, sseOpened := true, peerRegistered := true,
      actions := routeStreamBody body }

/-- `POST /tasks` (a2aService.ts lines 100 to 103): status 201 and the
session identifier as `id`. -/
def postTasksResponse (sessionId : String) : Nat × Json :=
  (201, Json.obj [("id", Json.str sessionId)])

/-- The payload stamping of `broadcast` (a2aService.ts lines 411 to 415):
`\x7b ...message, taskId: this.config.sessionId \x7d`.  The spread's net
effect is that the final object carries `taskId := sessionId`; no broadcast
call site passes a `taskId` of its own, so the filter is the identity there. -/
def stampTaskId (message : List (String × Json)) (sessionId : String) :
    List (String × Json) :=
  message.filter (fun f => !(f.1 == "taskId")) ++ [("taskId", Json.str sessionId)]

/-- The stamped broadcast payload as a JSON object. -/
def broadcastPayload (message : List (String × Json)) (sessionId : String) : Json :=
  Json.obj (stampTaskId message sessionId)

/-- The exact string sent to every open WebSocket client:
`client.send(JSON.stringify(payload))` — no record terminator is appended. -/
def wsBroadcastData (message : List (String × Json)) (sessionId : String) : String :=
  Json.stringify (broadcastPayload message sessionId)

/-- The JSON-RPC envelope written to SSE clients: `\x7b jsonrpc: "2.0", id:
payload.taskId, result: payload \x7d`. -/
def sseEnvelope (message : List (String × Json)) (sessionId : String) : Json :=
  Json.obj
    [("jsonrpc", Json.str "2.0"),
     ("id", ((broadcastPayload message sessionId).getField "taskId").getD Json.null),
     ("result", broadcastPayload message sessionId)]

/-- The exact SSE record written per event: `data: <envelope>\n\n`. -/
def sseBroadcastData (message : List (String × Json)) (sessionId : String) : String :=
  "data: " ++ Json.stringify (sseEnvelope message sessionId) ++ "\n\n"

/-- The `UiMirrorService.broadcast` wire format, for contrast with the A2A
WebSocket: `JSON.stringify(\x7b type, data \x7d) + '\0'` — this separate
`--ui-port` service is the one that null-terminates its frames
(uiMirrorService.ts lines 100 to 102). -/
def uiMirrorBroadcastData (type : String) (data : Json) : String :=
  Json.stringify (Json.obj [("type", Json.str type), ("data", data)])
    ++ String.singleton (Char.ofNat 0)

/-- One UTF-8 null byte, the record terminator the spec ascribes to
framed-socket messages. -/
def nullByte : String := String.singleton (Char.ofNat 0)

/-- A canonical outbound event, one constructor per `broadcast` call-site
shape in `A2AService.setupEventListeners`: model thought, model content /
host output text, tool-call update, console log.  Optional components mirror
object-literal properties that `JSON.stringify` drops when `undefined`. -/
inductive WireEvent where
  | thought (subject description : String)
  | textContent (text : String) (isStderr : Option Bool)
  | toolCallUpdate (toolCallId status toolName : String)
      (inputParameters : Option Json) (liveContent : Option String)
      (result : Option Json) (confirmationRequest : Option Json)
      (metadata : Option Json)
  | consoleLog (logType : String) (content : Json)

/-- An object entry present only when the value is defined (`JSON.stringify`
omits properties whose value is `undefined`). -/
def optEntry (key : String) : Option Json → List (String × Json)
  | some v => [(key, v)]
  | none => []

/-- The object literal each listener hands to `broadcast`, in the source's
key order. -/
def encodeWireEvent : WireEvent → List (String × Json)
  | WireEvent.thought subject description =>
      [("kind", Json.str "THOUGHT"),
       ("thought", Json.obj [("subject", Json.str subject),
                             ("description", Json.str description)])]
  | WireEvent.textContent text isStderr =>
      [("kind", Json.str "TEXT_CONTENT"),
       ("content", Json.obj [("text", Json.str text)])]
        ++ optEntry "isStderr" (isStderr.map Json.bool)
  | WireEvent.toolCallUpdate toolCallId status toolName inputParameters
      liveContent result confirmationRequest metadata =>
      [("kind", Json.str "TOOL_CALL_UPDATE"),
       ("tool_call_id", Json.str toolCallId),
       ("status", Json.str status),
       ("tool_name", Json.str toolName)]
        ++ optEntry "input_parameters" inputParameters
        ++ optEntry "live_content" (liveContent.map Json.str)
        ++ optEntry "result" result
        ++ optEntry "confirmation_request" confirmationRequest
        ++ optEntry "metadata" metadata
  | WireEvent.consoleLog logType content =>
      [("kind", Json.str "CONSOLE_LOG"), ("type", Json.str logType),
       ("content", content)]

/-- Decoding of a broadcast JSON object back into the event it serializes:
dispatch on `kind`, then read the fields the encoder wrote.  Unknown extra
fields (such as the stamped `taskId`) are ignored. -/
def decodeWireEvent (j : Json) : Option WireEvent :=
  match j.getField "kind" with
  | some (Json.str "THOUGHT") =>
      (match optField (j.getField "thought") "subject",
             optField (j.getField "thought") "description" with
       | some (Json.str subject), some (Json.str description) =>
           some (WireEvent.thought subject description)
       | _, _ => none)
  | some (Json.str "TEXT_CONTENT") =>
      (match optField (j.getField "content") "text" with
       | some (Json.str text) =>
           some (WireEvent.textContent text
             (match j.getField "isStderr" with
              | some (Json.bool b) => some b
              | _ => none))
       | _ => none)
  | some (Json.str "TOOL_CALL_UPDATE") =>
      (match j.getField "tool_call_id", j.getField "status",
             j.getField "tool_name" with
       | some (Json.str toolCallId), some (Json.str status),
         some (Json.str toolName) =>
           some (WireEvent.toolCallUpdate toolCallId status toolName
             (j.getField "input_parameters")
             (match j.getField "live_content" with
              | some (Json.str s) => some s
              | _ => none)
             (j.getField "result")
             (j.getField "confirmation_request")
             (j.getField "metadata"))
       | _, _, _ => none)
  | some (Json.str "CONSOLE_LOG") =>
      (match j.getField "type", j.getField "content" with
       | some (Json.str logType), some content =>
           some (WireEvent.consoleLog logType content)
       | _, _ => none)
  | _ => none

/-- The string a framed-socket (WebSocket) peer receives for one event. -/
def wsEventMessage (e : WireEvent) (sessionId : String) : String :=
  wsBroadcastData (encodeWireEvent e) sessionId

/-- Modelled from the spec: `CoreToolCallStatus` is imported from the host
core package (`@google/gemini-cli-core`), whose source is not part of the
bridge files; the spec's host contract names the five states of the status
table and says any other value maps to `PENDING`, so the model carries the
host's remaining scheduling states (`scheduled`, `validating`) to make the
default branch reachable. -/
inductive CoreToolCallStatus where
  | awaitingApproval
  | executing
  | success
  | error
  | cancelled
  | scheduled
  | validating
deriving DecidableEq

/-- `A2AService.mapToolCallStatus` (a2aService.ts lines 329 to 344): the
five-case switch with a `PENDING` default. -/
def mapToolCallStatus : CoreToolCallStatus → String
  | CoreToolCallStatus.awaitingApproval => "PENDING"
  | CoreToolCallStatus.executing => "EXECUTING"
  | CoreToolCallStatus.success => "SUCCEEDED"
  | CoreToolCallStatus.error => "FAILED"
  | CoreToolCallStatus.cancelled => "CANCELLED"
  | _ => "PENDING"

/-- The request part of a host tool call (`toolCall.request`). -/
structure ToolCallRequestInfo where
  callId : String
  name : String
  args : Json

/-- The response part of a host tool call: `resultDisplay` as a display
string when defined, and `error?.message` flattened through the optional
chain. -/
structure ToolCallResponseInfo where
  resultDisplay : Option String
  errorMessage : Option String

/-- One entry of a `TOOL_CALLS_UPDATE` batch.  `liveOutput` is `some`
exactly when `'liveOutput' in toolCall && typeof toolCall.liveOutput ===
'string'`. -/
structure ToolCall where
  request : ToolCallRequestInfo
  status : CoreToolCallStatus
  liveOutput : Option String
  response : ToolCallResponseInfo

/-- `A2AService.mapToolCallResult` (a2aService.ts lines 346 to 361): on
`Success` the display string defaulted with `|| 'Success'`, on `Error` the
message defaulted with `|| 'Unknown error'`, otherwise `undefined`. -/
def mapToolCallResult (toolCall : ToolCall) : Option Json :=
  if toolCall.status = CoreToolCallStatus.success then
    some (Json.obj [("output", Json.obj
      [("text", Json.str (jsOrString toolCall.response.resultDisplay "Success"))])])
  else if toolCall.status = CoreToolCallStatus.error then
    some (Json.obj [("error", Json.obj
      [("message", Json.str (jsOrString toolCall.response.errorMessage "Unknown error"))])])
  else none

/-- The event the `TOOL_CALLS_UPDATE` subscriber broadcasts for one tool
call of the batch (a2aService.ts lines 284 to 303). -/
def toolCallUpdateEvent (toolCall : ToolCall) : WireEvent :=
  WireEvent.toolCallUpdate toolCall.request.callId
    (mapToolCallStatus toolCall.status) toolCall.request.name
    (some toolCall.request.args) toolCall.liveOutput
    (mapToolCallResult toolCall) none none

/-- The JSON object broadcast for one tool call of a `TOOL_CALLS_UPDATE`
batch (before `taskId` stamping). -/
def toolCallUpdateJson (toolCall : ToolCall) : Json :=
  Json.obj (encodeWireEvent (toolCallUpdateEvent toolCall))

/-- The whole batch, one broadcast event per tool call, in batch order. -/
def toolCallsUpdateEvents (toolCalls : List ToolCall) : List WireEvent :=
  toolCalls.map toolCallUpdateEvent

/-- The publish actions among a routing outcome. -/
def actionPublish : A2AAction → Option ToolConfirmationResponse
  | A2AAction.publish msg => some msg
  | A2AAction.injectInput _ => none

/-- Every `TOOL_CONFIRMATION_RESPONSE` the host message bus observes while a
sequence of inbound WebSocket messages is handled, in order. -/
def publishedResponses (messages : List Json) : List ToolConfirmationResponse :=
  (messages.map handleClientMessage).flatten.filterMap actionPublish

/-- A well-formed `message/stream` envelope around a content object, the
shape both transports accept. -/
def streamEnvelope (contentFields : List (String × Json)) : Json :=
  Json.obj
    [("jsonrpc", Json.str "2.0"),
     ("method", Json.str "message/stream"),
     ("params", Json.obj
       [("message", Json.obj [("content", Json.obj contentFields)])])]

/-- A `TOOL_CALL_CONFIRMATION` response message as the protocol documentation
shows it. -/
def wsConfirmationMessage (toolCallId selectedOptionId : String) : Json :=
  streamEnvelope
    [("data", Json.obj
      [("kind", Json.str "TOOL_CALL_CONFIRMATION"),
       ("tool_call_id", Json.str toolCallId),
       ("selected_option_id", Json.str selectedOptionId)])]

/-!
The remote-control server (`packages/cli/src/core/remoteServer.ts`) and the
`TuiRemoteBridge` it talks to (`packages/cli/src/ui/utils/remoteBridge.ts`).
-/

/-- One entry of the TUI history as the remote server reads it: its `type`
tag and its optional `text`. -/
structure HistoryItem where
  type : String
  text : Option String

/-- The bridge's registration state: `onMessage` is whether a message handler
is registered; `getHistory` carries the registered provider's current
history.  `register` sets both, `unregister` clears both. -/
structure TuiRemoteBridgeState where
  onMessage : Bool
  getHistory : Option (List HistoryItem)

/-- `tuiRemoteBridge.isRegistered()`: both the handler and the provider are
present. -/
def isRegistered (st : TuiRemoteBridgeState) : Bool :=
  st.onMessage && st.getHistory.isSome

/-- `tuiRemoteBridge.getCurrentHistory()`: `this.getHistory?.() || []` — an
absent provider yields the empty list (an empty array is truthy, so a
registered provider's empty history is returned as is). -/
def getCurrentHistory (st : TuiRemoteBridgeState) : List HistoryItem :=
  match st.getHistory with
  | some history => history
  | none => []

/-- The filter of `GET /history`: type `'user'`, `'gemini'` or
`'gemini_content'`, and a truthy `item.text` (a present, non-empty string). -/
def historyFilterJs (item : HistoryItem) : Bool :=
  (item.type == "user" || item.type == "gemini" || item.type == "gemini_content")
    && (match item.text with
        | some t => !(t == "")
        | none => false)

/-- A mapped history entry `\x7b role, text \x7d`. -/
structure ChatMessage where
  role : String
  text : String
deriving DecidableEq

/-- The map of `GET /history`: role `'user'` for user items, `'model'`
otherwise; the text is `item.text`, which the preceding filter guarantees to
be a string. -/
def historyMapJs (item : HistoryItem) : ChatMessage :=
  { role := if item.type == "user" then "user" else "model",
    text := item.text.getD "" }

/-- A remote-server response body. -/
inductive RemoteBody where
  | errorBody (error : String)
  | historyBody (messages : List ChatMessage)
  | statusBody (status : String)
deriving DecidableEq

/-- The `GET /history` handler (remoteServer.ts lines 48 to 79):
registration check, `parseInt(url.searchParams.get('limit') || '0', 10)`,
filter, map, and `history.slice(-limit)` when the parsed limit is positive
(`NaN > 0` is false). -/
def remoteGetHistory (st : TuiRemoteBridgeState) (limitParam : Option String) :
    Nat × RemoteBody :=
  if !(isRegistered st) then
    (503, RemoteBody.errorBody "TUI bridge is not yet registered")
  else
    let limit := parseIntJs (jsOrString limitParam "0")
    let history := ((getCurrentHistory st).filter historyFilterJs).map historyMapJs
    let history :=
      match limit with
      | some n =>
          if 0 < n then history.drop (history.length - n.toNat) else history
      | none => history
    (200, RemoteBody.historyBody history)

/-- The `POST /message` handler (remoteServer.ts lines 15 to 46).  Input
`none` models a body `JSON.parse` rejects; `some Json.null` is the body
`"null"`, on which the destructuring `const \x7b message \x7d =
JSON.parse(body)` throws a `TypeError` that the same `catch` turns into the
`Invalid JSON` response.  The third component lists the messages submitted to
the bridge. -/
def remotePostMessageParsed (parsed : Json) (st : TuiRemoteBridgeState) :
    Nat × RemoteBody × List Json :=
  let message := parsed.getField "message"
  if !(jsTruthy message) then
    (400, RemoteBody.errorBody "Message is required", [])
  else if !(isRegistered st) then
    (503, RemoteBody.errorBody "TUI bridge is not yet registered", [])
  else
    (200, RemoteBody.statusBody "Message submitted", [message.getD Json.null])

/-- The dispatch of `POST /message` over the parse result. -/
def remotePostMessage (body : Option Json) (st : TuiRemoteBridgeState) :
    Nat × RemoteBody × List Json :=
  match body with
  | none => (400, RemoteBody.errorBody "Invalid JSON", [])
  | some Json.null => (400, RemoteBody.errorBody "Invalid JSON", [])
  | some parsed => remotePostMessageParsed parsed st

/-!
Claim-side definitions: restatements of spec sentences, to be compared with
the definitions translated from the source.
-/

/-- The status table exactly as the spec states it: the five named states
and `PENDING` for any other value. -/
def claimStatusTable : CoreToolCallStatus → String
  | CoreToolCallStatus.awaitingApproval => "PENDING"
  | CoreToolCallStatus.executing => "EXECUTING"
  | CoreToolCallStatus.success => "SUCCEEDED"
  | CoreToolCallStatus.error => "FAILED"
  | CoreToolCallStatus.cancelled => "CANCELLED"
  | _ => "PENDING"

/-- The `result` field of a broadcast tool-call update as the amended claim
states it: on `Success` the display result when it is a non-empty string and
`"Success"` when it is absent or empty; on `Error` the error message when it
is a non-empty string and `"Unknown error"` when absent or empty; absent for
every other status. -/
def claimResultValue (toolCall : ToolCall) : Option Json :=
  match toolCall.status with
  | CoreToolCallStatus.success =>
      some (Json.obj [("output", Json.obj [("text", Json.str
        (match toolCall.response.resultDisplay with
         | some s => if s = "" then "Success" else s
         | none => "Success"))])])
  | CoreToolCallStatus.error =>
      some (Json.obj [("error", Json.obj [("message", Json.str
        (match toolCall.response.errorMessage with
         | some s => if s = "" then "Unknown error" else s
         | none => "Unknown error"))])])
  | _ => none

/-- The `result.output.text` of a broadcast event, for inspecting concrete
outputs. -/
def resultOutputText (j : Json) : Option String :=
  match optField (optField (j.getField "result") "output") "text" with
  | some (Json.str s) => some s
  | _ => none

/-- The last `n` elements of a list, as the claim words it. -/
def lastN (n : Nat) (l : List α) : List α :=
  (l.reverse.take n).reverse

/-- The mapped history of the claim, built directly from its words: keep the
items of type `'user'`, `'gemini'` or `'gemini_content'` that have a
non-empty text, and map each to a role/text pair. -/
def claimHistoryProjection : List HistoryItem → List ChatMessage
  | [] => []
  | item :: rest =>
      match item.text with
      | some t =>
          if t ≠ "" ∧ (item.type = "user" ∨ item.type = "gemini"
              ∨ item.type = "gemini_content") then
            ⟨if item.type = "user" then "user" else "model", t⟩
              :: claimHistoryProjection rest
          else claimHistoryProjection rest
      | none => claimHistoryProjection rest

/-- The `GET /history` response as the claim states it for a registered
bridge: status 200; the last `N` mapped items when the limit parameter
parses to an integer `N > 0`, all of them otherwise. -/
def claimHistoryResponse (history : List HistoryItem) (limitParam : Option String) :
    Nat × RemoteBody :=
  let kept := claimHistoryProjection history
  (200, RemoteBody.historyBody
    (match limitParam with
     | none => kept
     | some s =>
         match parseIntJs s with
         | some n => if 0 < n then lastN n.toNat kept else kept
         | none => kept))

/-- The `POST /message` behaviour as the amended claim states it: a
non-JSON body and the body `"null"` (whose destructuring throws) yield 400
`Invalid JSON`; any other valid body without a truthy `message` yields 400
`Message is required`; with a truthy `message`, an unregistered bridge
yields 503 and submits nothing, and otherwise the message is submitted
exactly once with a 200 response. -/
def claimPostMessage (body : Option Json) (st : TuiRemoteBridgeState) :
    Nat × RemoteBody × List Json :=
  match body with
  | none => (400, RemoteBody.errorBody "Invalid JSON", [])
  | some Json.null => (400, RemoteBody.errorBody "Invalid JSON", [])
  | some parsed =>
      if jsTruthy (parsed.getField "message") then
        if isRegistered st then
          (200, RemoteBody.statusBody "Message submitted",
            [(parsed.getField "message").getD Json.null])
        else (503, RemoteBody.errorBody "TUI bridge is not yet registered", [])
      else (400, RemoteBody.errorBody "Message is required", [])

/-!
Concrete inputs for the counterexamples.
-/

/-- Two peer responses to the same confirmation, first `proceed_once`, then
`cancel` — the race of the spec's first-wins scenario. -/
def c1DemoMessages : List Json :=
  [wsConfirmationMessage "c1" "proceed_once", wsConfirmationMessage "c1" "cancel"]

/-- A small concrete broadcast event. -/
def c3DemoEvent : WireEvent := WireEvent.textContent "hi" none

/-- A content object carrying both a string `text` and a
`TOOL_CALL_CONFIRMATION` data object. -/
def c5DemoContent : List (String × Json) :=
  [("text", Json.str "hi"),
   ("data", Json.obj
     [("kind", Json.str "TOOL_CALL_CONFIRMATION"),
      ("tool_call_id", Json.str "t1"),
      ("selected_option_id", Json.str "cancel")])]

/-- A successful tool call whose display result is the empty string. -/
def c7DemoToolCall : ToolCall :=
  { request := { callId := "t1", name := "write_file", args := Json.null },
    status := CoreToolCallStatus.success,
    liveOutput := none,
    response := { resultDisplay := some "", errorMessage := none } }

/-- A fully registered bridge with an empty history. -/
def c10DemoBridge : TuiRemoteBridgeState :=
  { onMessage := true, getHistory := some [] }

/-- A registered bridge with a small mixed history. -/
def c9DemoBridge : TuiRemoteBridgeState :=
  { onMessage := true,
    getHistory := some
      [⟨"user", some "q1"⟩, ⟨"gemini", some "a1"⟩, ⟨"info", some "noise"⟩,
       ⟨"gemini_content", some ""⟩, ⟨"user", some "q2"⟩, ⟨"gemini", none⟩] }

/-- What the WebSocket handler does with the content object of a well-formed
envelope: the `data` test comes first; `text` is only consulted when `data`
is not a plain object. -/
def routeContentWs (contentFields : List (String × Json)) : List A2AAction :=
  match lookupField contentFields "data" with
  | some (Json.obj dataFields) =>
      (match lookupField dataFields "kind" with
       | some (Json.str kind) =>
           if kind = "TOOL_CALL_CONFIRMATION" then
             match lookupField dataFields "tool_call_id",
                   lookupField dataFields "selected_option_id" with
             | some (Json.str toolCallId), some (Json.str selectedOptionId) =>
                 [A2AAction.publish
                   ⟨"TOOL_CONFIRMATION_RESPONSE", toolCallId,
                     selectedOptionId == "proceed_once"⟩]
             | _, _ => []
           else []
       | _ => [])
  | _ =>
      match lookupField contentFields "text" with
      | some (Json.str input) => [A2AAction.injectInput input]
      | _ => []

/-- What the SSE handler does with the content object of a well-formed
envelope: the `text` test comes first. -/
def routeContentSse (contentFields : List (String × Json)) : List A2AAction :=
  match lookupField contentFields "text" with
  | some (Json.str input) => [A2AAction.injectInput input]
  | _ =>
      match lookupField contentFields "data" with
      | some (Json.obj dataFields) =>
          (match lookupField dataFields "kind" with
           | some (Json.str kind) =>
               if kind = "TOOL_CALL_CONFIRMATION" then
                 match lookupField dataFields "tool_call_id",
                       lookupField dataFields "selected_option_id" with
                 | some (Json.str toolCallId), some (Json.str selectedOptionId) =>
                     [A2AAction.publish
                       ⟨"TOOL_CONFIRMATION_RESPONSE", toolCallId,
                         selectedOptionId == "proceed_once"⟩]
                 | _, _ => []
               else []
           | _ => [])
      | _ => []

/-!
Theorems.  First some characterizations and list lemmas shared across the
claims.
-/

/-- On a well-formed envelope the WebSocket handler is its content routing. -/
theorem handleClientMessage_streamEnvelope (contentFields : List (String × Json)) :
    handleClientMessage (streamEnvelope contentFields) = routeContentWs contentFields := rfl

/-- On a well-formed envelope the SSE body routing is its content routing. -/
theorem routeStreamBody_streamEnvelope (contentFields : List (String × Json)) :
    routeStreamBody (streamEnvelope contentFields) = routeContentSse contentFields := rfl

/-- The stamped payload always binds `taskId` to the session identifier. -/
theorem lookupField_stampTaskId (fields : List (String × Json)) (sessionId : String) :
    lookupField (stampTaskId fields sessionId) "taskId" = some (Json.str sessionId) := by
  induction fields with
  | nil => rfl
  | cons f rest ih =>
      by_cases h : f.1 = "taskId"
      · simpa [stampTaskId, List.filter_cons, h] using ih
      · simpa [stampTaskId, List.filter_cons, h, lookupField] using ih

/-- The last `n` elements are what `slice(-n)` keeps. -/
theorem lastN_eq_drop {α : Type} (n : Nat) (l : List α) :
    lastN n l = l.drop (l.length - n) := by
  simp [lastN, List.take_reverse]

/-- C1 (counterexample): two peers answer the same correlation identifier
`"c1"` — first `proceed_once`, then `cancel` — and the host message bus
observes two `TOOL_CONFIRMATION_RESPONSE` publishes for `"c1"`, not at most
one: the second response is not discarded. -/
theorem c1_counterexample_duplicate_response_published :
    publishedResponses c1DemoMessages =
      [⟨"TOOL_CONFIRMATION_RESPONSE", "c1", true⟩,
       ⟨"TOOL_CONFIRMATION_RESPONSE", "c1", false⟩]
    ∧ ¬ ((publishedResponses c1DemoMessages).countP
          (fun r => r.correlationId == "c1") ≤ 1) := by
  constructor
  · rfl
  · decide

/-- C1 (amended): the bridge keeps no per-correlation state: every valid
`TOOL_CALL_CONFIRMATION` inbound message publishes exactly one
`TOOL_CONFIRMATION_RESPONSE` to the host message bus, regardless of the
messages already handled, so responses for an already-answered
`correlationId` are published again rather than discarded. -/
theorem c1_amended_every_valid_response_publishes
    (prior : List Json) (toolCallId selectedOptionId : String) :
    publishedResponses (prior ++ [wsConfirmationMessage toolCallId selectedOptionId]) =
      publishedResponses prior ++
        [⟨"TOOL_CONFIRMATION_RESPONSE", toolCallId,
          selectedOptionId == "proceed_once"⟩] := by
  unfold publishedResponses
  rw [List.map_append, List.flatten_append, List.filterMap_append]
  rfl

/-- C2: on either transport, an inbound `TOOL_CALL_CONFIRMATION` whose
`tool_call_id` and `selected_option_id` are both strings publishes a
`TOOL_CONFIRMATION_RESPONSE` whose `confirmed` is true exactly when the
selected option is `proceed_once`; every other option id, `cancel` and
unknown ids included, publishes `confirmed = false`.  (The `text`-is-not-a-
string hypothesis makes the SSE router reach the confirmation branch at
all.) -/
theorem c2_option_semantics
    (contentFields dataFields : List (String × Json))
    (toolCallId selectedOptionId : String)
    (hdata : lookupField contentFields "data" = some (Json.obj dataFields))
    (hkind : lookupField dataFields "kind" = some (Json.str "TOOL_CALL_CONFIRMATION"))
    (hid : lookupField dataFields "tool_call_id" = some (Json.str toolCallId))
    (hopt : lookupField dataFields "selected_option_id" = some (Json.str selectedOptionId))
    (htext : isStringField (lookupField contentFields "text") = false) :
    handleClientMessage (streamEnvelope contentFields) =
      [A2AAction.publish ⟨"TOOL_CONFIRMATION_RESPONSE", toolCallId,
        selectedOptionId == "proceed_once"⟩]
    ∧ routeStreamBody (streamEnvelope contentFields) =
      [A2AAction.publish ⟨"TOOL_CONFIRMATION_RESPONSE", toolCallId,
        selectedOptionId == "proceed_once"⟩]
    ∧ ((selectedOptionId == "proceed_once") = true ↔ selectedOptionId = "proceed_once") := by
  refine ⟨?_, ?_, by simp⟩
  · rw [handleClientMessage_streamEnvelope]
    simp [routeContentWs, hdata, hkind, hid, hopt]
  · rw [routeStreamBody_streamEnvelope]
    unfold routeContentSse
    rcases htex : lookupField contentFields "text" with _ | v
    · simp [htex, hdata, hkind, hid, hopt]
    · cases v with
      | null => simp [htex, hdata, hkind, hid, hopt]
      | bool b => simp [htex, hdata, hkind, hid, hopt]
      | num n => simp [htex, hdata, hkind, hid, hopt]
      | str s => simp [isStringField, htex] at htext
      | arr elems => simp [htex, hdata, hkind, hid, hopt]
      | obj fields => simp [htex, hdata, hkind, hid, hopt]

/-- C2 (witness): the theorem applied to the documented confirmation message
with option `proceed_once`. -/
theorem c2_option_semantics_witness :
    handleClientMessage (streamEnvelope
      [("data", Json.obj
        [("kind", Json.str "TOOL_CALL_CONFIRMATION"),
         ("tool_call_id", Json.str "t1"),
         ("selected_option_id", Json.str "proceed_once")])]) =
      [A2AAction.publish ⟨"TOOL_CONFIRMATION_RESPONSE", "t1", true⟩]
    ∧ routeStreamBody (streamEnvelope
      [("data", Json.obj
        [("kind", Json.str "TOOL_CALL_CONFIRMATION"),
         ("tool_call_id", Json.str "t1"),
         ("selected_option_id", Json.str "proceed_once")])]) =
      [A2AAction.publish ⟨"TOOL_CONFIRMATION_RESPONSE", "t1", true⟩] := by
  have h := c2_option_semantics
    [("data", Json.obj
      [("kind", Json.str "TOOL_CALL_CONFIRMATION"),
       ("tool_call_id", Json.str "t1"),
       ("selected_option_id", Json.str "proceed_once")])]
    [("kind", Json.str "TOOL_CALL_CONFIRMATION"),
     ("tool_call_id", Json.str "t1"),
     ("selected_option_id", Json.str "proceed_once")]
    "t1" "proceed_once" rfl rfl rfl rfl rfl
  exact ⟨h.1, h.2.1⟩

/-- C5 (counterexample): a message whose content carries both the string
text `"hi"` and a `TOOL_CALL_CONFIRMATION` data object is routed as a
prompt injection by the SSE transport, but the WebSocket transport forwards
the confirmation and never injects the text — the transports do not share
the claimed text-first order. -/
theorem c5_counterexample_ws_data_wins :
    routeStreamBody (streamEnvelope c5DemoContent) = [A2AAction.injectInput "hi"]
    ∧ handleClientMessage (streamEnvelope c5DemoContent) =
        [A2AAction.publish ⟨"TOOL_CONFIRMATION_RESPONSE", "t1", false⟩]
    ∧ handleClientMessage (streamEnvelope c5DemoContent) ≠
        [A2AAction.injectInput "hi"] := by
  refine ⟨rfl, rfl, ?_⟩
  decide

/-- C5 (amended): the transports classify in different orders.  On the SSE
transport a string `content.text` always wins and is injected.  On the
WebSocket transport a plain-object `content.data` always wins: such a
message never injects text (it publishes a confirmation when the kind and
both ids check out, and is dropped otherwise), and text injection happens
exactly when `content.data` is not a plain object and `content.text` is a
string. -/
theorem c5_amended_classification_order :
    (∀ (contentFields : List (String × Json)) (text : String),
       lookupField contentFields "text" = some (Json.str text) →
       routeStreamBody (streamEnvelope contentFields) = [A2AAction.injectInput text])
    ∧ (∀ (contentFields dataFields : List (String × Json)) (text : String),
       lookupField contentFields "text" = some (Json.str text) →
       lookupField contentFields "data" = some (Json.obj dataFields) →
       A2AAction.injectInput text ∉ handleClientMessage (streamEnvelope contentFields))
    ∧ (∀ (contentFields : List (String × Json)) (text : String),
       lookupField contentFields "text" = some (Json.str text) →
       isObjRecord (lookupField contentFields "data") = false →
       handleClientMessage (streamEnvelope contentFields) = [A2AAction.injectInput text]) := by
  refine ⟨?_, ?_, ?_⟩
  · intro contentFields text htext
    rw [routeStreamBody_streamEnvelope]
    simp [routeContentSse, htext]
  · intro contentFields dataFields text htext hdata hmem
    rw [handleClientMessage_streamEnvelope] at hmem
    unfold routeContentWs at hmem
    rw [hdata] at hmem
    repeat' split at hmem
    all_goals simp at hmem
  · intro contentFields text htext hdata
    rw [handleClientMessage_streamEnvelope]
    unfold routeContentWs
    rcases hd : lookupField contentFields "data" with _ | v
    · simp [htext]
    · cases v with
      | null => simp [htext]
      | bool b => simp [htext]
      | num n => simp [htext]
      | str s => simp [htext]
      | arr elems => simp [htext]
      | obj dataFields =>
          rw [hd] at hdata
          simp [isObjRecord] at hdata

/-- C3 (counterexample): the message the A2A WebSocket broadcast sends for a
concrete event is the bare JSON serialization — it does not end with a null
byte and differs from the null-terminated frame the claim describes.  (The
null-byte framing belongs to the separate `UiMirrorService`.) -/
theorem c3_counterexample_no_null_terminator :
    wsEventMessage c3DemoEvent "S" =
      "\x7b\"kind\":\"TEXT_CONTENT\",\"content\":\x7b\"text\":\"hi\"\x7d,\"taskId\":\"S\"\x7d"
    ∧ (wsEventMessage c3DemoEvent "S").data.getLast? = some (Char.ofNat 125)
    ∧ Char.ofNat 125 ≠ Char.ofNat 0
    ∧ wsEventMessage c3DemoEvent "S" ≠
        Json.stringify (Json.obj (stampTaskId (encodeWireEvent c3DemoEvent) "S")) ++ nullByte := by
  refine ⟨rfl, by decide, by decide, by decide⟩

/-- C3 (amended): the message sent to a framed-socket (WebSocket) peer is the
event's JSON serialization with no terminator byte appended — it is never the
serialization followed by a null byte — and the serialized, `taskId`-stamped
object decodes back to the same event (encode/decode round-trip). -/
theorem c3_amended_ws_frame_roundtrip (e : WireEvent) (sessionId : String) :
    wsEventMessage e sessionId =
      Json.stringify (Json.obj (stampTaskId (encodeWireEvent e) sessionId))
    ∧ wsEventMessage e sessionId ≠
      Json.stringify (Json.obj (stampTaskId (encodeWireEvent e) sessionId)) ++ nullByte
    ∧ decodeWireEvent (Json.obj (stampTaskId (encodeWireEvent e) sessionId)) = some e := by
  refine ⟨rfl, ?_, ?_⟩
  · intro h
    have hl := congrArg String.length h
    rw [String.length_append] at hl
    have h0 : (wsEventMessage e sessionId).length =
        (Json.stringify (Json.obj (stampTaskId (encodeWireEvent e) sessionId))).length := rfl
    have hn : nullByte.length = 1 := rfl
    rw [h0, hn] at hl
    omega
  · cases e with
    | thought subject description => rfl
    | textContent text isStderr => cases isStderr <;> rfl
    | toolCallUpdate toolCallId status toolName inputParameters liveContent
        result confirmationRequest metadata =>
        cases inputParameters <;> cases liveContent <;> cases result <;>
          cases confirmationRequest <;> cases metadata <;> rfl
    | consoleLog logType content => rfl

/-- C4: every broadcast payload, on either transport, carries `taskId` equal
to the session identifier; the SSE envelope wraps that same payload (and
uses the same value as its JSON-RPC `id`); and `POST /tasks` answers 201
with that same identifier as `id`. -/
theorem c4_taskid_equals_session (message : List (String × Json)) (sessionId : String) :
    (broadcastPayload message sessionId).getField "taskId" = some (Json.str sessionId)
    ∧ (sseEnvelope message sessionId).getField "result" =
        some (broadcastPayload message sessionId)
    ∧ (sseEnvelope message sessionId).getField "id" = some (Json.str sessionId)
    ∧ postTasksResponse sessionId = (201, Json.obj [("id", Json.str sessionId)])
    ∧ (postTasksResponse sessionId).2.getField "id" = some (Json.str sessionId) := by
  refine ⟨lookupField_stampTaskId message sessionId, rfl, ?_, rfl, rfl⟩
  simp [sseEnvelope, Json.getField, lookupField, broadcastPayload,
    lookupField_stampTaskId]

/-- C6: for every tool call of a `TOOL_CALLS_UPDATE` batch, the `status` of
the broadcast `TOOL_CALL_UPDATE` event is given by the spec's total table:
`AwaitingApproval` to `PENDING`, `Executing` to `EXECUTING`, `Success` to
`SUCCEEDED`, `Error` to `FAILED`, `Cancelled` to `CANCELLED`, and every
other host status to `PENDING`. -/
theorem c6_status_mapping (toolCall : ToolCall) :
    (toolCallUpdateJson toolCall).getField "status"
      = some (Json.str (claimStatusTable toolCall.status))
    ∧ mapToolCallStatus toolCall.status = claimStatusTable toolCall.status := by
  cases toolCall with
  | mk request status liveOutput response =>
      cases status <;> exact ⟨rfl, rfl⟩

/-- C7 (amended): for every tool call of a `TOOL_CALLS_UPDATE` batch, the
broadcast event's `result` is: on `Success`, `output.text` equal to the
display result when that is a non-empty string and `"Success"` when it is
absent or empty; on `Error`, `error.message` equal to the error message when
that is a non-empty string and `"Unknown error"` when it is absent or empty;
and absent for every other status. -/
theorem c7_amended_result_mapping (toolCall : ToolCall) :
    (toolCallUpdateJson toolCall).getField "result" = claimResultValue toolCall := by
  cases toolCall with
  | mk request status liveOutput response =>
      cases status <;> cases liveOutput <;> rfl

/-- C7 (counterexample): a successful tool call whose display result is the
empty string is broadcast with `result.output.text = "Success"`, not with
the (empty) display result the claim prescribes. -/
theorem c7_counterexample_empty_display :
    c7DemoToolCall.response.resultDisplay = some ""
    ∧ resultOutputText (toolCallUpdateJson c7DemoToolCall) = some "Success"
    ∧ resultOutputText (toolCallUpdateJson c7DemoToolCall) ≠ some "" := by
  refine ⟨rfl, rfl, by decide⟩

/-- C8: a `POST /tasks/\x7btaskId\x7d/messages/stream` whose (non-empty)
`taskId` differs from the session identifier is answered 404 with a JSON
error body, registers no SSE peer and routes nothing; a matching `taskId`,
or an alias route carrying none, opens the SSE stream, registers the peer
and routes the body as an inbound peer message. -/
theorem c8_stream_taskid_validation :
    (∀ (taskId sessionId : String) (body : Json),
       taskId ≠ "" → taskId ≠ sessionId →
       handleStreamRequest (some taskId) sessionId body =
         { status := 404,
           body := some (Json.obj [("error", Json.str "Task not found")]),
           sseOpened := false, peerRegistered := false, actions := [] })
    ∧ (∀ (sessionId : String) (body : Json),
       handleStreamRequest (some sessionId) sessionId body =
         { status := 200, body := none, sseOpened := true,
           peerRegistered := true, actions := routeStreamBody body })
    ∧ (∀ (sessionId : String) (body : Json),
       handleStreamRequest none sessionId body =
         { status := 200, body := none, sseOpened := true,
           peerRegistered := true, actions := routeStreamBody body }) := by
  refine ⟨?_, ?_, ?_⟩
  · intro taskId sessionId body h1 h2
    simp [handleStreamRequest, taskIdRejected, h1, h2]
  · intro sessionId body
    simp [handleStreamRequest, taskIdRejected]
  · intro sessionId body
    rfl

/-- The claim's projection agrees with the code's filter-then-map. -/
theorem claimHistoryProjection_eq_filterMap (history : List HistoryItem) :
    claimHistoryProjection history =
      (history.filter historyFilterJs).map historyMapJs := by
  induction history with
  | nil => rfl
  | cons item rest ih =>
      rcases htext : item.text with _ | t
      · have hf : historyFilterJs item = false := by
          simp [historyFilterJs, htext]
        simpa [claimHistoryProjection, htext, List.filter_cons, hf] using ih
      · by_cases hc : t ≠ "" ∧ (item.type = "user" ∨ item.type = "gemini"
            ∨ item.type = "gemini_content")
        · have hf : historyFilterJs item = true := by
            simp [historyFilterJs, htext]
            tauto
          have hm : historyMapJs item =
              ⟨if item.type = "user" then "user" else "model", t⟩ := by
            simp [historyMapJs, htext]
          simp [claimHistoryProjection, htext, hc, List.filter_cons, hf, hm, ih]
        · have hf : historyFilterJs item = false := by
            simp [historyFilterJs, htext]
            tauto
          simp [claimHistoryProjection, htext, hc, List.filter_cons, hf, ih]

/-- C9: for a registered bridge, `GET /history` answers 200 with exactly the
claim's projection of the current history — the items of type `user`,
`gemini` or `gemini_content` with non-empty text, mapped to role/text pairs
with role `user` for user items and `model` otherwise — truncated to the
last `N` entries when the `limit` parameter parses to an integer `N > 0`,
and untruncated otherwise. -/
theorem c9_history_endpoint (st : TuiRemoteBridgeState) (limitParam : Option String)
    (hreg : isRegistered st = true) :
    remoteGetHistory st limitParam =
      claimHistoryResponse (getCurrentHistory st) limitParam := by
  unfold remoteGetHistory claimHistoryResponse
  rw [hreg, claimHistoryProjection_eq_filterMap]
  rcases limitParam with _ | s
  · rfl
  · by_cases hs : s = ""
    · subst hs
      rfl
    · have hjs : jsOrString (some s) "0" = s := by
        simp [jsOrString, hs]
      rw [hjs]
      rcases hp : parseIntJs s with _ | n
      · simp [hp]
      · by_cases hn : 0 < n <;> simp [hp, hn, lastN_eq_drop]

/-- C9 (witness): the theorem applied to a registered bridge with a mixed
history and `limit=2`. -/
theorem c9_history_endpoint_witness :
    isRegistered c9DemoBridge = true
    ∧ remoteGetHistory c9DemoBridge (some "2") =
        claimHistoryResponse (getCurrentHistory c9DemoBridge) (some "2") :=
  ⟨rfl, c9_history_endpoint c9DemoBridge (some "2") rfl⟩

/-- Branch analysis of the parsed-body part of `POST /message`. -/
theorem remotePostMessageParsed_spec (parsed : Json) (st : TuiRemoteBridgeState) :
    remotePostMessageParsed parsed st =
      (if jsTruthy (parsed.getField "message") then
        if isRegistered st then
          (200, RemoteBody.statusBody "Message submitted",
            [(parsed.getField "message").getD Json.null])
        else (503, RemoteBody.errorBody "TUI bridge is not yet registered", [])
       else (400, RemoteBody.errorBody "Message is required", []))
    ∧ (remotePostMessageParsed parsed st).2.2.length ≤ 1
    ∧ ((remotePostMessageParsed parsed st).1 = 200 ↔
        (remotePostMessageParsed parsed st).2.2.length = 1) := by
  by_cases ht : jsTruthy (parsed.getField "message") <;>
    by_cases hr : isRegistered st <;>
    simp [remotePostMessageParsed, ht, hr]

/-- C10 (amended): `POST /message` behaves as claimed with one amendment for
the body `"null"`: a body `JSON.parse` rejects yields 400 `Invalid JSON`; so
does the valid JSON body `null`, whose destructuring throws into the same
`catch`; any other valid JSON body without a truthy `message` yields 400
`Message is required`; with a truthy `message`, an unregistered bridge gets
503 and nothing is submitted, and otherwise the message is submitted to the
bridge exactly once with 200 `Message submitted`.  The message count of any
response is at most one, and is one exactly for the 200 response. -/
theorem c10_amended_post_message (body : Option Json) (st : TuiRemoteBridgeState) :
    remotePostMessage body st = claimPostMessage body st
    ∧ (remotePostMessage body st).2.2.length ≤ 1
    ∧ ((remotePostMessage body st).1 = 200 ↔
        (remotePostMessage body st).2.2.length = 1) := by
  rcases body with _ | j
  · exact ⟨rfl, by simp [remotePostMessage], by simp [remotePostMessage]⟩
  · cases j with
    | null => exact ⟨rfl, by simp [remotePostMessage], by simp [remotePostMessage]⟩
    | bool b => exact remotePostMessageParsed_spec (Json.bool b) st
    | num n => exact remotePostMessageParsed_spec (Json.num n) st
    | str s => exact remotePostMessageParsed_spec (Json.str s) st
    | arr elems => exact remotePostMessageParsed_spec (Json.arr elems) st
    | obj fields => exact remotePostMessageParsed_spec (Json.obj fields) st

/-- C10 (counterexample): the body `"null"` is valid JSON without a truthy
`message` field, yet even with a fully registered bridge the response is 400
`Invalid JSON`, not the claimed 400 `Message is required`. -/
theorem c10_counterexample_null_body :
    remotePostMessage (some Json.null) c10DemoBridge =
      (400, RemoteBody.errorBody "Invalid JSON", [])
    ∧ (remotePostMessage (some Json.null) c10DemoBridge).2.1 ≠
        RemoteBody.errorBody "Message is required" := by
  exact ⟨rfl, by decide⟩
